import Mathlib

/-!
Verification of the RAG ingestion-and-query pipeline of the
AI-powered customer support assistant (directory `src/rag_service`).

The Python sources are shallowly embedded: pure computations become Lean
functions, exceptions become `Except`, the external collaborators
(tiktoken, PyPDF2, the langchain splitter, the embedding model, the
generation model, the Qdrant client) become explicit function or data
parameters.  Python `str` methods are modelled over `String.data`
(`List Char`) so that every definition evaluates inside the kernel.
-/

namespace RagService

/-- Model of Python `str.lower` (used as `provider.lower()` and
`filename.lower()` in `ingest.py` and `query.py`). -/
def pyLower (s : String) : String :=
  String.mk (s.data.map Char.toLower)

/-- Model of Python `str.endswith` (used in `ingest.py` line 158/162). -/
def pyEndsWith (s : String) (sfx : String) : Bool :=
  List.isSuffixOf sfx.data s.data

/-- Helper for `pyContains`: substring search over character lists. -/
def listContainsChars (pat : List Char) : List Char → Bool
  | [] => pat.isEmpty
  | c :: rest => pat.isPrefixOf (c :: rest) || listContainsChars pat rest

/-- Model of the Python membership test `pat in s` on strings
(used as `'pdf' in file_type` in `ingest.py` line 158). -/
def pyContains (s : String) (pat : String) : Bool :=
  listContainsChars pat.data s.data

/-- Model of Python `str.strip` (used in `ingest.py` line 110):
drops leading and trailing whitespace. -/
def pyStrip (s : String) : String :=
  String.mk (((s.data.dropWhile Char.isWhitespace).reverse.dropWhile
      Char.isWhitespace).reverse)

/-- Whether a byte is a UTF-8 continuation byte (`0x80 ≤ b < 0xC0`). -/
def isUtf8ContByte (b : Nat) : Bool :=
  decide (0x80 ≤ b) && decide (b < 0xC0)

/-- Fuel-driven strict UTF-8 decoder over a byte list, modelling CPython
`bytes.decode("utf-8")` (used in `ingest.py` lines 163 and 168): rejects
stray continuation bytes, overlong encodings, surrogates, and code points
above `0x10FFFF`.  Each step consumes at least one byte, so fuel equal to
the list length always suffices. -/
def utf8DecodeFuel : Nat → List Nat → Option (List Char)
  | _, [] => some []
  | 0, _ :: _ => none
  | fuel + 1, b :: bs =>
    if b < 0x80 then
      match utf8DecodeFuel fuel bs with
      | some cs => some (Char.ofNat b :: cs)
      | none => none
    else if b < 0xC2 then
      none
    else if b < 0xE0 then
      match bs with
      | b1 :: bs2 =>
        if isUtf8ContByte b1 then
          match utf8DecodeFuel fuel bs2 with
          | some cs => some (Char.ofNat ((b - 0xC0) * 0x40 + (b1 - 0x80)) :: cs)
          | none => none
        else none
      | [] => none
    else if b < 0xF0 then
      match bs with
      | b1 :: b2 :: bs2 =>
        if isUtf8ContByte b1 && isUtf8ContByte b2 then
          let cp := (b - 0xE0) * 0x1000 + (b1 - 0x80) * 0x40 + (b2 - 0x80)
          if decide (cp < 0x800) || (decide (0xD800 ≤ cp) && decide (cp < 0xE000)) then
            none
          else
            match utf8DecodeFuel fuel bs2 with
            | some cs => some (Char.ofNat cp :: cs)
            | none => none
        else none
      | _ => none
    else if b < 0xF5 then
      match bs with
      | b1 :: b2 :: b3 :: bs2 =>
        if isUtf8ContByte b1 && isUtf8ContByte b2 && isUtf8ContByte b3 then
          let cp := (b - 0xF0) * 0x40000 + (b1 - 0x80) * 0x1000 +
            (b2 - 0x80) * 0x40 + (b3 - 0x80)
          if decide (cp < 0x10000) || decide (0x10FFFF < cp) then
            none
          else
            match utf8DecodeFuel fuel bs2 with
            | some cs => some (Char.ofNat cp :: cs)
            | none => none
        else none
      | _ => none
    else none

/-- Model of Python `file_content.decode("utf-8")`: `none` models a raised
`UnicodeDecodeError`. -/
def pyUtf8Decode (file_content : List Nat) : Option String :=
  match utf8DecodeFuel file_content.length file_content with
  | some cs => some (String.mk cs)
  | none => none

/-- Process configuration, from `config.py` (class `Settings`).  The
`temperature` float is modelled as a rational. -/
structure Settings where
  llm_provider : String
  openai_api_key : String
  openai_model : String
  groq_api_key : String
  groq_model : String
  ollama_base_url : String
  ollama_model : String
  embedding_provider : String
  embedding_model : String
  hf_embedding_model : String
  vector_db : String
  qdrant_url : String
  qdrant_api_key : String
  qdrant_collection_name : String
  chunk_size : Nat
  chunk_overlap : Nat
  top_k : Nat
  temperature : ℚ
  max_tokens : Nat

/-- The defaults of `config.py` (environment variables unset, so every
`os.getenv` falls back to its second argument; API keys default to `""`). -/
def defaultSettings : Settings :=
  ⟨"openai", "", "gpt-4", "", "llama-3.1-70b-versatile",
   "http://host.docker.internal:11434", "llama3.1", "openai",
   "text-embedding-3-small", "all-MiniLM-L6-v2", "qdrant",
   "http://localhost:6333", "", "customer_support_docs",
   1000, 200, 5, 7 / 10, 500⟩

/-- The embedding handle produced by `_initialize_embeddings`
(`ingest.py` lines 45-64 and identically `query.py` lines 59-78). -/
inductive Embeddings
  | openAIEmbeddings (api_key : String) (model : String)
  | huggingFaceEmbeddings (model_name : String)
deriving DecidableEq

/-- Embedding of `DocumentIngestor._initialize_embeddings` /
`RAGQueryEngine._initialize_embeddings` (`ingest.py` lines 45-64,
`query.py` lines 59-78).  A raised `ValueError` becomes `.error`; the
Python truthiness test `not settings.openai_api_key` is `= ""`. -/
def initialize_embeddings (s : Settings) : Except String Embeddings :=
  let provider := pyLower s.embedding_provider
  if provider = "openai" then
    if s.openai_api_key = "" then
      .error "OpenAI API key required for OpenAI embeddings"
    else
      .ok (.openAIEmbeddings s.openai_api_key s.embedding_model)
  else if provider = "huggingface" then
    .ok (.huggingFaceEmbeddings s.hf_embedding_model)
  else
    .error ("Unknown embedding provider: " ++ provider)

/-- The generation-model handle produced by `_initialize_llm`
(`query.py` lines 80-122). -/
inductive LLM
  | chatOpenAI (api_key : String) (model : String) (temperature : ℚ)
      (max_tokens : Nat)
  | chatGroq (api_key : String) (model_name : String) (temperature : ℚ)
      (max_tokens : Nat)
  | ollamaLLM (base_url : String) (model : String) (temperature : ℚ)
deriving DecidableEq

/-- The identifying name of the generation model actually held by an
`LLM` handle (the `model` / `model_name` constructor argument passed in
`_initialize_llm`). -/
def LLM.modelName : LLM → String
  | .chatOpenAI _ m _ _ => m
  | .chatGroq _ m _ _ => m
  | .ollamaLLM _ m _ => m

/-- Embedding of `RAGQueryEngine._initialize_llm` (`query.py` lines
80-122).  `groq_available` and `ollama_available` model the module-level
availability flags `GROQ_AVAILABLE` / `OLLAMA_AVAILABLE` (`query.py`
lines 14-25); raised `ValueError`s become `.error`. -/
def initialize_llm (s : Settings) (groq_available ollama_available : Bool) :
    Except String LLM :=
  let provider := pyLower s.llm_provider
  if provider = "openai" then
    if s.openai_api_key = "" then
      .error "OpenAI API key required. Get one at https://platform.openai.com/api-keys"
    else
      .ok (.chatOpenAI s.openai_api_key s.openai_model s.temperature s.max_tokens)
  else if provider = "groq" then
    if groq_available = false then
      .error "Groq not installed. Run: pip install langchain-groq"
    else if s.groq_api_key = "" then
      .error "Groq API key required. Get FREE key at https://console.groq.com"
    else
      .ok (.chatGroq s.groq_api_key s.groq_model s.temperature s.max_tokens)
  else if provider = "ollama" then
    if ollama_available = false then
      .error "Ollama support not available"
    else
      .ok (.ollamaLLM s.ollama_base_url s.ollama_model s.temperature)
  else
    .error ("Unknown LLM provider: " ++ provider ++ ". Choose: openai, groq, or ollama")

/-- The distance metric of a Qdrant collection (`qdrant_client.models.Distance`). -/
inductive QdrantDistance
  | cosine
  | dot
  | euclid
deriving DecidableEq

/-- A collection as visible through the Qdrant client: its name, its
vector dimensionality, and its distance metric. -/
structure CollectionInfo where
  name : String
  dim : Nat
  distance : QdrantDistance
deriving DecidableEq

/-- The vector size chosen at collection creation
(`ingest.py` lines 73-79; note the provider string is compared without
lowercasing here, unlike `_initialize_embeddings`). -/
def ensure_collection_vector_size (s : Settings) : Nat :=
  if s.embedding_provider = "openai" then 1536
  else if s.embedding_provider = "huggingface" then 384
  else 1536

/-- Embedding of the body of `DocumentIngestor._ensure_collection_exists`
(`ingest.py` lines 69-85), acting on the store state `store` returned by
`get_collections`: if the configured collection name is absent, a
collection with cosine distance and the provider-determined vector size
is created; if the name is present, nothing at all is done — in
particular the existing dimensionality is never inspected. -/
def ensure_collection_exists (s : Settings) (store : List CollectionInfo) :
    List CollectionInfo :=
  let collection_names := store.map CollectionInfo.name
  if collection_names.contains s.qdrant_collection_name then
    store
  else
    store ++ [⟨s.qdrant_collection_name, ensure_collection_vector_size s, .cosine⟩]

/-- Modelled from the spec: `ensureCollection(name, dimensionality)` of
spec section 4.4 — creates the collection with cosine similarity scoring
if absent, is a no-op if a collection with matching dimensionality
exists, and fails with `DimensionMismatch` if an existing collection has
a different dimensionality.  Stated separately so it can be compared
with the source behaviour `ensure_collection_exists`. -/
def ensureCollection_spec (name : String) (dim : Nat)
    (store : List CollectionInfo) : Except String (List CollectionInfo) :=
  match store.find? (fun c => c.name == name) with
  | none => .ok (store ++ [⟨name, dim, .cosine⟩])
  | some c => if c.dim = dim then .ok store else .error "DimensionMismatch"

/-- The `try/except` wrapper around `_ensure_collection_exists`
(`ingest.py` lines 68 and 86-87): a failing `get_collections` call
(`collections_call = .error _`) is caught and only logged, so the
method returns normally in every case — `none` records that the store
state is unknown after a swallowed exception, never an error. -/
def ensure_collection_exists_guarded (s : Settings)
    (collections_call : Except String (List CollectionInfo)) :
    Option (List CollectionInfo) :=
  match collections_call with
  | .ok store => some (ensure_collection_exists s store)
  | .error _ => none

/-- The constructed ingestor object (`DocumentIngestor.__init__`,
`ingest.py` lines 21-43): the resolved embeddings and the splitter
parameters taken from settings. -/
structure DocumentIngestor where
  embeddings : Embeddings
  chunk_size : Nat
  chunk_overlap : Nat
deriving DecidableEq

/-- Embedding of `DocumentIngestor.__init__` (`ingest.py` lines 21-43):
embeddings initialization may raise (propagated as `.error`); for the
qdrant backend the collection check runs under its internal
`try/except` and therefore contributes no failure; any other
`vector_db` value skips store setup (`elif "pinecone": pass`). -/
def documentIngestorInit (s : Settings)
    (collections_call : Except String (List CollectionInfo)) :
    Except String DocumentIngestor :=
  match initialize_embeddings s with
  | .error e => .error e
  | .ok emb =>
    if s.vector_db = "qdrant" then
      let _collections := ensure_collection_exists_guarded s collections_call
      .ok ⟨emb, s.chunk_size, s.chunk_overlap⟩
    else
      .ok ⟨emb, s.chunk_size, s.chunk_overlap⟩

/-- The constructed query engine (`RAGQueryEngine.__init__`, `query.py`
lines 33-57). -/
structure RAGQueryEngine where
  embeddings : Embeddings
  llm : LLM
deriving DecidableEq

/-- Embedding of `RAGQueryEngine.__init__` (`query.py` lines 33-57):
embedding initialization, then LLM initialization, either failure
propagating; the vector-store handle construction and the prompt
template are non-failing. -/
def ragQueryEngineInit (s : Settings) (groq_available ollama_available : Bool) :
    Except String RAGQueryEngine :=
  match initialize_embeddings s with
  | .error e => .error e
  | .ok emb =>
    match initialize_llm s groq_available ollama_available with
    | .error e => .error e
    | .ok llm => .ok ⟨emb, llm⟩

/-- Embedding of `DocumentIngestor._extract_from_pdf` (`ingest.py` lines
176-189): page texts (delivered by the external PyPDF2 reader) are
concatenated in order, each followed by a newline. -/
def extract_from_pdf (pages : List String) : String :=
  pages.foldl (fun text page => text ++ page ++ "\n") ""

/-- Embedding of `DocumentIngestor._extract_text` (`ingest.py` lines
152-174).  `pdf_pages` models the external PyPDF2 reader applied to the
bytes (`none` models a PyPDF2 exception); dispatch is by lowercased
filename suffix and by the substring test `"pdf" in file_type`; for
non-PDF, non-text-suffix inputs a best-effort UTF-8 decode is attempted
and its failure raises `ValueError("Unsupported file type: ...")`
(line 170). -/
def extract_text (pdf_pages : Option (List String)) (file_content : List Nat)
    (filename : String) (file_type : String) : Except String String :=
  let filename_lower := pyLower filename
  if pyEndsWith filename_lower ".pdf" || pyContains file_type "pdf" then
    match pdf_pages with
    | some pages => .ok (extract_from_pdf pages)
    | none => .error "Error extracting from PDF"
  else if pyEndsWith filename_lower ".txt" || pyEndsWith filename_lower ".md" ||
      pyEndsWith filename_lower ".markdown" || pyEndsWith filename_lower ".csv" then
    match pyUtf8Decode file_content with
    | some text => .ok text
    | none => .error "UnicodeDecodeError"
  else
    match pyUtf8Decode file_content with
    | some text => .ok text
    | none => .error ("Unsupported file type: " ++ file_type)

/-- One persisted record of the similarity index: the embedding vector,
the chunk text, and the metadata attached in `ingest.py` lines 121-129. -/
structure VectorRecord where
  vector : List ℚ
  text : String
  source : String
  doc_id : String
  chunk_index : Nat
  total_chunks : Nat

/-- The dictionary returned by a successful `DocumentIngestor.ingest`
(`ingest.py` lines 142-146). -/
structure IngestResult where
  chunk_count : Nat
  vector_store_id : String
  filename : String
deriving DecidableEq

/-- Embedding of `DocumentIngestor.ingest` (`ingest.py` lines 89-150),
threading the vector index state explicitly.  `split_text_fn` models
`self.text_splitter.split_text`, `embed` the embedding provider inside
`vector_store.add_texts`, and `doc_id` the generated `uuid.uuid4()`.
The result pairs the index state after the call with the outcome: every
raised exception (re-raised at line 150) becomes `.error` and, having
occurred before the `add_texts` upsert, leaves the index untouched. -/
def ingest (pdf_pages : Option (List String))
    (split_text_fn : String → List String) (embed : String → List ℚ)
    (doc_id : String) (file_content : List Nat) (filename : String)
    (file_type : String) (index : List VectorRecord) :
    List VectorRecord × Except String IngestResult :=
  match extract_text pdf_pages file_content filename file_type with
  | .error e => (index, .error e)
  | .ok text =>
    if text == "" || pyStrip text == "" then
      (index, .error "No text could be extracted from the document")
    else
      let chunks := split_text_fn text
      let records := chunks.enum.map (fun p =>
        VectorRecord.mk (embed p.2) p.2 filename doc_id p.1 chunks.length)
      (index ++ records, .ok ⟨chunks.length, doc_id, filename⟩)

/-- Embedding of `RAGQueryEngine._estimate_tokens` (`query.py` lines
198-213).  `encodingForModel` models `tiktoken.encoding_for_model`
composed with token counting (`len(encoding.encode(...))`); `none`
models the raised `KeyError` for a model without a registered encoding,
which the `except` branch turns into a returned `0` (line 213). -/
def estimate_tokens (encodingForModel : String → Option (String → Nat))
    (model : String) (query : String) (response : String)
    (context : List String) : Nat :=
  match encodingForModel model with
  | some encode =>
    let query_tokens := encode query
    let response_tokens := encode response
    let context_tokens := (context.map encode).sum
    query_tokens + response_tokens + context_tokens + 100
  | none => 0

/-- Modelled from the spec: the conservative fixed fallback estimate of
spec section 4.7 — character count divided by an empirically chosen
average token length, taken here as the conventional 4 characters per
token.  Stated separately so it can be compared with the source
fallback behaviour in `estimate_tokens`. -/
def charFallbackEstimate (query : String) (response : String)
    (context : List String) : Nat :=
  (query.data.length + response.data.length +
    (context.map (fun c => c.data.length)).sum) / 4

/-- The dictionary returned by a successful `RAGQueryEngine.query`
(`query.py` lines 187-192). -/
structure QueryResult where
  response : String
  context : List String
  model : String
  tokens_used : Nat
deriving DecidableEq

/-- Embedding of the result assembly of `RAGQueryEngine.query`
(`query.py` lines 159-192).  `source_documents` models the chunk texts
retrieved through the Qdrant retriever and `llm_answer` the text
generated by the chain; the returned `model` field is literally
`settings.openai_model` (line 190) whatever `settings.llm_provider`
says, and `tokens_used` comes from `_estimate_tokens`. -/
def queryResult (s : Settings)
    (encodingForModel : String → Option (String → Nat))
    (source_documents : List String) (llm_answer : String)
    (query : String) : QueryResult :=
  let context := source_documents
  let tokens_used :=
    estimate_tokens encodingForModel s.openai_model query llm_answer context
  ⟨llm_answer, context, s.openai_model, tokens_used⟩

/-- Modelled from the spec: the sliding-window text chunker of spec
section 4.3 (the concrete splitter, langchain
`RecursiveCharacterTextSplitter`, is external to this repository).
Fuel-driven window walk: each emitted window holds at most `size`
characters and the walk advances by `step` characters, so consecutive
windows share `size - step` characters of overlap. -/
def chunkWindowAux : Nat → Nat → Nat → List Char → List (List Char)
  | _, _, _, [] => []
  | 0, _, _, _ :: _ => []
  | fuel + 1, size, step, c :: rest =>
    if (c :: rest).length ≤ size then
      [c :: rest]
    else
      (c :: rest).take size :: chunkWindowAux fuel size step ((c :: rest).drop step)

/-- Modelled from the spec: `TextChunker` (spec sections 2 and 4.3) —
deterministic sliding-window splitter with a maximum chunk length
`chunk_size` and an overlap `chunk_overlap`, breaking by hard character
cut (the fallback cut the spec names; natural-boundary preference does
not affect the determinism claim).  Parameters mirror the splitter
configuration of `ingest.py` lines 24-28 with `length_function = len`. -/
def split_text (chunk_size : Nat) (chunk_overlap : Nat) (text : String) :
    List String :=
  let step := max (chunk_size - chunk_overlap) 1
  (chunkWindowAux text.data.length chunk_size step text.data).map
    (fun cs => String.mk cs)

/-- Modelled from the spec: `VectorStore.search(queryVector, k)` of spec
section 4.4 (the concrete k-NN search runs inside Qdrant, external to
this repository) — score every stored record against the query vector
with the similarity function, rank by descending score, and return at
most the `k` best as (chunk text, relevance score) pairs, `k` as passed
by `RAGQueryEngine.query` through `search_kwargs` (`query.py` lines
162-165). -/
def vectorSearch (sim : List ℚ → List ℚ → ℚ)
    (records : List (List ℚ × String)) (query_vector : List ℚ) (k : Nat) :
    List (String × ℚ) :=
  let scored := records.map (fun r => (r.2, sim query_vector r.1))
  let ranked := scored.mergeSort (fun a b => decide (b.2 ≤ a.2))
  ranked.take k

/-- One positive-feedback training sample (a query/response pair), as
consumed by `RetrainManager._format_for_finetuning` (`retrain.py`
lines 102-125). -/
structure TrainingSample where
  query : String
  response : String
deriving DecidableEq

/-- The dictionary returned by `RetrainManager.retrain` (`retrain.py`
lines 48-53 and 63-68), with absent dictionary keys as `none`. -/
structure RetrainResult where
  status : String
  reason : Option String
  samples_collected : Option Nat
  threshold : Option Nat
  samples_used : Option Nat
  message : Option String
deriving DecidableEq

/-- Embedding of the decision logic of `RetrainManager.retrain`
(`retrain.py` lines 44-68) applied to the already-collected training
data: below the threshold it reports the skipped outcome of lines
48-53, otherwise the initiated outcome of lines 63-68. -/
def retrainWith (training_data : List TrainingSample)
    (feedback_threshold : Nat) : RetrainResult :=
  if training_data.length < feedback_threshold then
    ⟨"skipped", some "insufficient_data", some training_data.length,
      some feedback_threshold, none, none⟩
  else
    ⟨"initiated", none, none, none, some training_data.length,
      some "Retraining job created successfully"⟩

/-- Embedding of `RetrainManager._collect_training_data` (`retrain.py`
lines 77-100): the collection is an unimplemented stub that always
returns the empty sample list. -/
def collect_training_data (_min_samples : Nat) : List TrainingSample :=
  []

/-- Embedding of `RetrainManager.retrain` (`retrain.py` lines 18-68):
collect (stubbed) training data, then decide between the skipped and
the initiated outcome. -/
def retrain (feedback_threshold : Nat) : RetrainResult :=
  retrainWith (collect_training_data feedback_threshold) feedback_threshold

/-- Settings with the generation provider switched to groq and a groq
credential present (all other fields at their `config.py` defaults). -/
def settingsGroq : Settings :=
  { defaultSettings with llm_provider := "groq", groq_api_key := "gsk-demo" }

/-- Settings with the default openai generation provider and an OpenAI
credential present. -/
def settingsOpenAI : Settings :=
  { defaultSettings with openai_api_key := "sk-demo" }

/-- Settings with the free huggingface embedding provider (which needs
no credential). -/
def settingsHF : Settings :=
  { defaultSettings with embedding_provider := "huggingface" }

/-- Settings with an unrecognized embedding provider name. -/
def settingsBadEmbedding : Settings :=
  { defaultSettings with embedding_provider := "cohere" }

/-- Claim C1 (amended): for a completed query the estimated token count
equals tokens(query) + tokens(answer) + the sum of tokens over the
retrieved chunks, plus the fixed template-overhead constant 100, using
the tiktoken encoding looked up for the configured OpenAI model name;
whenever no encoding is available for that name, the estimator catches
the failure and returns the degenerate estimate 0 rather than failing
the query (the code has no character-count fallback). -/
theorem C1_token_estimate (encodingForModel : String → Option (String → Nat))
    (s : Settings) (query response : String) (context : List String) :
    (∀ encode, encodingForModel s.openai_model = some encode →
      estimate_tokens encodingForModel s.openai_model query response context =
        encode query + encode response + (context.map encode).sum + 100) ∧
    (encodingForModel s.openai_model = none →
      estimate_tokens encodingForModel s.openai_model query response context = 0) ∧
    (queryResult s encodingForModel context response query).tokens_used =
      estimate_tokens encodingForModel s.openai_model query response context := by
  refine ⟨?_, ?_, rfl⟩
  · intro encode h
    simp [estimate_tokens, h]
  · intro h
    simp [estimate_tokens, h]

/-- Witness for C1: with no encoding available the estimator returns 0
on a concrete query. -/
theorem C1_token_estimate_witness :
    estimate_tokens (fun _ => none) defaultSettings.openai_model
      "What is the refund policy?" "" [] = 0 :=
  (C1_token_estimate (fun _ => none) defaultSettings
    "What is the refund policy?" "" []).2.1 rfl

/-- Counterexample for C1 as stated: when no exact tokenizer is
available the code returns 0 (`query.py` line 213), not the
character-count-divided-by-average-token-length fallback the claim
describes, which on this concrete query would be 6. -/
theorem C1_counterexample :
    estimate_tokens (fun _ => none) "gpt-4" "What is the refund policy?" "" [] = 0 ∧
    charFallbackEstimate "What is the refund policy?" "" [] = 6 ∧
    (0 : Nat) ≠ 6 :=
  ⟨rfl, rfl, by decide⟩

/-- Claim C2 (amended): ensure-collection creates the collection with
cosine similarity scoring and the provider-determined dimensionality
when the name is absent, and is a no-op whenever a collection of that
name exists, regardless of its dimensionality — the existing
dimensionality is never compared and no `DimensionMismatch` failure is
possible. -/
theorem C2_ensure_collection (s : Settings) (store : List CollectionInfo) :
    ((store.map CollectionInfo.name).contains s.qdrant_collection_name = true →
      ensure_collection_exists s store = store) ∧
    ((store.map CollectionInfo.name).contains s.qdrant_collection_name = false →
      ensure_collection_exists s store =
        store ++ [⟨s.qdrant_collection_name, ensure_collection_vector_size s,
          .cosine⟩]) := by
  constructor <;> intro h <;> simp only [ensure_collection_exists, h] <;> simp

/-- Witness for C2: with the default collection name already present
(at dimensionality 384) the call leaves the store unchanged. -/
theorem C2_ensure_collection_witness :
    ensure_collection_exists defaultSettings
      [⟨"customer_support_docs", 384, .cosine⟩] =
      [⟨"customer_support_docs", 384, .cosine⟩] :=
  (C2_ensure_collection defaultSettings
    [⟨"customer_support_docs", 384, .cosine⟩]).1 rfl

/-- Counterexample for C2 as stated: under the default (openai)
configuration the requested dimensionality is 1536, yet with an
existing 384-dimensional collection of the same name the code is a
silent no-op where the spec contract `ensureCollection_spec` demands a
`DimensionMismatch` failure. -/
theorem C2_counterexample :
    ensure_collection_vector_size defaultSettings = 1536 ∧
    ensure_collection_exists defaultSettings
      [⟨"customer_support_docs", 384, .cosine⟩] =
      [⟨"customer_support_docs", 384, .cosine⟩] ∧
    ensureCollection_spec "customer_support_docs" 1536
      [⟨"customer_support_docs", 384, .cosine⟩] = .error "DimensionMismatch" :=
  ⟨rfl, rfl, rfl⟩

/-- Claim C3 (amended): the model field of every query result is the
configured OpenAI model name `settings.openai_model` (`query.py` line
190) whatever generation provider is configured; it therefore names the
generation model actually used only when the configured provider is
openai, in which case the initialized LLM indeed carries that model
name. -/
theorem C3_reported_model (s : Settings) (ga oa : Bool)
    (encodingForModel : String → Option (String → Nat))
    (docs : List String) (answer q : String) :
    (queryResult s encodingForModel docs answer q).model = s.openai_model ∧
    (pyLower s.llm_provider = "openai" →
      ∀ llm, initialize_llm s ga oa = .ok llm → llm.modelName = s.openai_model) := by
  refine ⟨rfl, ?_⟩
  intro hp llm h
  simp only [initialize_llm, hp] at h
  by_cases hk : s.openai_api_key = "" <;> simp [hk] at h
  rw [← h]
  rfl

/-- Witness for C3 (amended): under an openai configuration with a
credential present, the reported model field matches the configured
OpenAI model, and the initialized LLM carries the same name. -/
theorem C3_reported_model_witness :
    (queryResult settingsOpenAI (fun _ => none) [] "ans" "q").model =
      settingsOpenAI.openai_model ∧
    LLM.modelName (.chatOpenAI "sk-demo" "gpt-4" (7 / 10) 500) =
      settingsOpenAI.openai_model :=
  ⟨(C3_reported_model settingsOpenAI true true (fun _ => none) [] "ans" "q").1,
   (C3_reported_model settingsOpenAI true true (fun _ => none) [] "ans" "q").2
     (by decide) (.chatOpenAI "sk-demo" "gpt-4" (7 / 10) 500) rfl⟩

/-- Counterexample for C3 as stated: with groq configured as generation
provider, the LLM actually initialized is the groq model
`llama-3.1-70b-versatile`, yet the query result reports `gpt-4` (the
configured OpenAI model name). -/
theorem C3_counterexample :
    (initialize_llm settingsGroq true true).map LLM.modelName =
      .ok "llama-3.1-70b-versatile" ∧
    (queryResult settingsGroq (fun _ => none) [] "ans" "q").model = "gpt-4" ∧
    ("gpt-4" : String) ≠ "llama-3.1-70b-versatile" :=
  ⟨rfl, rfl, by decide⟩

/-- Claim C4: every ingestion call that fails does so before the final
upsert and leaves the vector index unchanged; in particular an input
whose lowercased filename matches no supported suffix, whose declared
type does not mention pdf, and whose bytes are not valid UTF-8 fails
with the unsupported-file-type error and creates no records. -/
theorem C4_failed_ingestion_leaves_index_unchanged
    (pdf_pages : Option (List String)) (split_text_fn : String → List String)
    (embed : String → List ℚ) (doc_id : String) (file_content : List Nat)
    (filename file_type : String) (index : List VectorRecord) :
    (∀ e, (ingest pdf_pages split_text_fn embed doc_id file_content filename
        file_type index).2 = .error e →
      (ingest pdf_pages split_text_fn embed doc_id file_content filename
        file_type index).1 = index) ∧
    (pyEndsWith (pyLower filename) ".pdf" = false →
     pyContains file_type "pdf" = false →
     pyEndsWith (pyLower filename) ".txt" = false →
     pyEndsWith (pyLower filename) ".md" = false →
     pyEndsWith (pyLower filename) ".markdown" = false →
     pyEndsWith (pyLower filename) ".csv" = false →
     pyUtf8Decode file_content = none →
     ingest pdf_pages split_text_fn embed doc_id file_content filename
        file_type index =
       (index, .error ("Unsupported file type: " ++ file_type))) := by
  constructor
  · intro e h
    unfold ingest at h ⊢
    cases hext : extract_text pdf_pages file_content filename file_type with
    | error e2 => simp [hext]
    | ok text =>
      rw [hext] at h
      by_cases hempty : (text == "" || pyStrip text == "") = true
      · simp [hempty]
      · exact absurd h (by simp [hempty])
  · intro h1 h2 h3 h4 h5 h6 hdec
    unfold ingest extract_text
    simp [h1, h2, h3, h4, h5, h6, hdec]

/-- Witness for C4: ingesting a `.bin` file declared as
`application/octet-stream` whose bytes `[255, 254]` are not valid UTF-8
fails with the unsupported-file-type error and leaves the (empty) index
empty. -/
theorem C4_witness :
    ingest none (fun t => [t]) (fun _ => []) "doc-1" [255, 254] "data.bin"
      "application/octet-stream" [] =
      ([], .error "Unsupported file type: application/octet-stream") :=
  (C4_failed_ingestion_leaves_index_unchanged none (fun t => [t]) (fun _ => [])
    "doc-1" [255, 254] "data.bin" "application/octet-stream" []).2
    rfl rfl rfl rfl rfl rfl rfl

/-- Claim C5: pipeline construction fails immediately — before any
request can be made against the constructed object — whenever the named
embedding or generation provider is unrecognized or the required
credential for the configured provider is absent. -/
theorem C5_construction_fails_fast (s : Settings) (ga oa : Bool)
    (call : Except String (List CollectionInfo)) :
    (pyLower s.embedding_provider ≠ "openai" →
     pyLower s.embedding_provider ≠ "huggingface" →
      (∃ e, documentIngestorInit s call = .error e) ∧
      (∃ e, ragQueryEngineInit s ga oa = .error e)) ∧
    (pyLower s.embedding_provider = "openai" → s.openai_api_key = "" →
      (∃ e, documentIngestorInit s call = .error e) ∧
      (∃ e, ragQueryEngineInit s ga oa = .error e)) ∧
    (pyLower s.llm_provider ≠ "openai" → pyLower s.llm_provider ≠ "groq" →
     pyLower s.llm_provider ≠ "ollama" →
      ∃ e, ragQueryEngineInit s ga oa = .error e) ∧
    (pyLower s.llm_provider = "openai" → s.openai_api_key = "" →
      ∃ e, ragQueryEngineInit s ga oa = .error e) ∧
    (pyLower s.llm_provider = "groq" → s.groq_api_key = "" →
      ∃ e, ragQueryEngineInit s ga oa = .error e) := by
  have hengine : (∀ emb, initialize_embeddings s = .ok emb →
      ∃ e, initialize_llm s ga oa = .error e) →
      ∃ e, ragQueryEngineInit s ga oa = .error e := by
    intro hl
    cases he : initialize_embeddings s with
    | error e => exact ⟨e, by simp [ragQueryEngineInit, he]⟩
    | ok emb =>
      obtain ⟨e, hle⟩ := hl emb he
      exact ⟨e, by simp [ragQueryEngineInit, he, hle]⟩
  refine ⟨?_, ?_, ?_, ?_, ?_⟩
  · intro h1 h2
    have he : initialize_embeddings s =
        .error ("Unknown embedding provider: " ++ pyLower s.embedding_provider) := by
      simp [initialize_embeddings, h1, h2]
    exact ⟨⟨"Unknown embedding provider: " ++ pyLower s.embedding_provider,
        by simp [documentIngestorInit, he]⟩,
      ⟨"Unknown embedding provider: " ++ pyLower s.embedding_provider,
        by simp [ragQueryEngineInit, he]⟩⟩
  · intro h1 h2
    have he : initialize_embeddings s =
        .error "OpenAI API key required for OpenAI embeddings" := by
      simp [initialize_embeddings, h1, h2]
    exact ⟨⟨"OpenAI API key required for OpenAI embeddings",
        by simp [documentIngestorInit, he]⟩,
      ⟨"OpenAI API key required for OpenAI embeddings",
        by simp [ragQueryEngineInit, he]⟩⟩
  · intro h1 h2 h3
    refine hengine (fun emb _ =>
      ⟨"Unknown LLM provider: " ++ pyLower s.llm_provider ++
        ". Choose: openai, groq, or ollama", ?_⟩)
    simp [initialize_llm, h1, h2, h3]
  · intro h1 h2
    refine hengine (fun emb _ =>
      ⟨"OpenAI API key required. Get one at https://platform.openai.com/api-keys", ?_⟩)
    simp [initialize_llm, h1, h2]
  · intro h1 h2
    refine hengine (fun emb _ => ?_)
    cases ga with
    | false =>
      exact ⟨"Groq not installed. Run: pip install langchain-groq",
        by simp [initialize_llm, h1]⟩
    | true =>
      exact ⟨"Groq API key required. Get FREE key at https://console.groq.com",
        by simp [initialize_llm, h1, h2]⟩

/-- Witness for C5: with the unrecognized embedding provider name
`cohere`, both the ingestor and the query engine fail to construct. -/
theorem C5_construction_fails_fast_witness :
    (∃ e, documentIngestorInit settingsBadEmbedding (.ok []) = .error e) ∧
    (∃ e, ragQueryEngineInit settingsBadEmbedding true true = .error e) :=
  (C5_construction_fails_fast settingsBadEmbedding true true (.ok [])).1
    (by decide) (by decide)

/-- Claim C6: chunking is deterministic — identical input text under
identical (chunk size, overlap) parameters with overlap strictly below
the chunk size yields identical chunk sequences. -/
theorem C6_chunking_deterministic (t1 t2 : String)
    (chunk_size chunk_overlap : Nat) :
    chunk_overlap < chunk_size → t1 = t2 →
    split_text chunk_size chunk_overlap t1 =
      split_text chunk_size chunk_overlap t2 := by
  intro _ ht
  rw [ht]

/-- Witness for C6: two runs on the same text with the configured
parameters (size 1000, overlap 200) agree. -/
theorem C6_chunking_deterministic_witness :
    200 < 1000 ∧
    split_text 1000 200 "hello world" = split_text 1000 200 "hello world" :=
  ⟨by decide,
   C6_chunking_deterministic "hello world" "hello world" 1000 200 (by decide) rfl⟩

/-- Claim C7: retrieval returns an ordered sequence of (chunk text,
relevance score) pairs of length `min k (collection size)` — hence at
most top-k, and fewer when the collection holds fewer records — sorted
by descending similarity, and every returned text comes from a stored
record (no padding with invalid entries). -/
theorem C7_retrieval_ranked_and_bounded (sim : List ℚ → List ℚ → ℚ)
    (records : List (List ℚ × String)) (query_vector : List ℚ) (k : Nat) :
    (vectorSearch sim records query_vector k).length = min k records.length ∧
    List.Sorted (fun a b : String × ℚ => b.2 ≤ a.2)
      (vectorSearch sim records query_vector k) ∧
    (vectorSearch sim records query_vector k).map Prod.fst ⊆
      records.map Prod.snd := by
  refine ⟨?_, ?_, ?_⟩
  · simp [vectorSearch, List.length_take, List.length_mergeSort]
  · have htrans : ∀ a b c : String × ℚ,
        decide (b.2 ≤ a.2) = true → decide (c.2 ≤ b.2) = true →
        decide (c.2 ≤ a.2) = true := by
      intro a b c hab hbc
      simp only [decide_eq_true_eq] at hab hbc ⊢
      exact le_trans hbc hab
    have htotal : ∀ a b : String × ℚ,
        (decide (b.2 ≤ a.2) || decide (a.2 ≤ b.2)) = true := by
      intro a b
      rcases le_total a.2 b.2 with h | h <;> simp [h]
    have hs := @List.sorted_mergeSort (String × ℚ)
      (fun a b => decide (b.2 ≤ a.2)) htrans htotal
      (records.map (fun r => (r.2, sim query_vector r.1)))
    have hs2 : List.Pairwise (fun a b : String × ℚ => b.2 ≤ a.2)
        ((records.map (fun r => (r.2, sim query_vector r.1))).mergeSort
          (fun a b => decide (b.2 ≤ a.2))) :=
      hs.imp (fun h => by simpa using h)
    exact List.Pairwise.sublist (List.take_sublist k _) hs2
  · intro x hx
    simp only [vectorSearch, List.mem_map] at hx
    obtain ⟨p, hp, rfl⟩ := hx
    have hp2 := (List.take_sublist k _).subset hp
    have hp3 := List.mem_mergeSort.mp hp2
    obtain ⟨r, hr, rfl⟩ := List.mem_map.mp hp3
    exact List.mem_map.mpr ⟨r, hr, rfl⟩

/-- Claim C8: an ingestion input whose extracted text is empty or
whitespace-only fails with the empty-document error and produces no
chunks and no records — the index is left unchanged. -/
theorem C8_empty_document_rejected (pdf_pages : Option (List String))
    (split_text_fn : String → List String) (embed : String → List ℚ)
    (doc_id : String) (file_content : List Nat) (filename file_type : String)
    (index : List VectorRecord) (text : String) :
    extract_text pdf_pages file_content filename file_type = .ok text →
    (text == "" || pyStrip text == "") = true →
    ingest pdf_pages split_text_fn embed doc_id file_content filename
      file_type index =
      (index, .error "No text could be extracted from the document") := by
  intro hext hempty
  unfold ingest
  simp [hext, hempty]

/-- Witness for C8: a `.txt` upload whose bytes decode to the
whitespace-only text consisting of a space and a newline is rejected
with the empty-document error and the (empty) index stays empty. -/
theorem C8_empty_document_rejected_witness :
    ingest none (fun t => [t]) (fun _ => []) "doc-2" [32, 10] "notes.txt"
      "text/plain" [] =
      ([], .error "No text could be extracted from the document") :=
  C8_empty_document_rejected none (fun t => [t]) (fun _ => []) "doc-2"
    [32, 10] "notes.txt" "text/plain" [] " \n" rfl rfl

/-- Claim C9 (amended): a retraining invocation whose collected
positive-feedback samples number below the feedback threshold reports
the non-error outcome with status `skipped`, reason `insufficient_data`
(spelled with an underscore in the code), and `samples_collected` equal
to the number of samples actually collected. -/
theorem C9_retrain_skips_below_threshold (training_data : List TrainingSample)
    (feedback_threshold : Nat) :
    training_data.length < feedback_threshold →
    retrainWith training_data feedback_threshold =
      ⟨"skipped", some "insufficient_data", some training_data.length,
        some feedback_threshold, none, none⟩ := by
  intro h
  simp [retrainWith, h]

/-- Witness for C9 (amended): 3 collected samples against threshold 10
yield the skipped outcome with `samples_collected = 3`. -/
theorem C9_retrain_skips_below_threshold_witness :
    retrainWith [⟨"q1", "r1"⟩, ⟨"q2", "r2"⟩, ⟨"q3", "r3"⟩] 10 =
      ⟨"skipped", some "insufficient_data", some 3, some 10, none, none⟩ :=
  C9_retrain_skips_below_threshold
    [⟨"q1", "r1"⟩, ⟨"q2", "r2"⟩, ⟨"q3", "r3"⟩] 10 (by decide)

/-- Counterexample for C9 as stated: the reported reason string is
`insufficient_data` (`retrain.py` line 50), not the claimed
`insufficient data`. -/
theorem C9_counterexample :
    (retrainWith [⟨"q1", "r1"⟩, ⟨"q2", "r2"⟩, ⟨"q3", "r3"⟩] 10).status =
      "skipped" ∧
    (retrainWith [⟨"q1", "r1"⟩, ⟨"q2", "r2"⟩, ⟨"q3", "r3"⟩] 10).samples_collected =
      some 3 ∧
    (retrainWith [⟨"q1", "r1"⟩, ⟨"q2", "r2"⟩, ⟨"q3", "r3"⟩] 10).reason =
      some "insufficient_data" ∧
    (retrainWith [⟨"q1", "r1"⟩, ⟨"q2", "r2"⟩, ⟨"q3", "r3"⟩] 10).reason ≠
      some "insufficient data" :=
  ⟨rfl, rfl, rfl, by decide⟩

/-- Claim C10 (implicit): construction of the document ingestor never
fails because the vector store is unreachable or the collection check
errors — whenever embedding initialization succeeds, construction
returns the ingestor for every outcome of the `get_collections` call,
including a raised store exception, which is caught and only logged. -/
theorem C10_ingestor_construction_survives_store_failure (s : Settings)
    (call : Except String (List CollectionInfo)) (emb : Embeddings) :
    initialize_embeddings s = .ok emb →
    documentIngestorInit s call = .ok ⟨emb, s.chunk_size, s.chunk_overlap⟩ := by
  intro h
  unfold documentIngestorInit
  rw [h]
  by_cases hv : s.vector_db = "qdrant" <;> simp [hv]

/-- Witness for C10: under the credential-free huggingface embedding
configuration, construction succeeds even when the store call raises a
connection error. -/
theorem C10_ingestor_construction_survives_store_failure_witness :
    documentIngestorInit settingsHF (.error "connection refused") =
      .ok ⟨.huggingFaceEmbeddings "all-MiniLM-L6-v2", 1000, 200⟩ :=
  C10_ingestor_construction_survives_store_failure settingsHF
    (.error "connection refused") (.huggingFaceEmbeddings "all-MiniLM-L6-v2") rfl

end RagService
